import Mathlib

/-!
Verification of the `video_generation` package (Veo video generator):
string utilities (`utils.py`), the poll loop, the download step, the
single-job orchestrator and the batch orchestrator (`generator.py`),
and the Pydantic models (`models.py`).

Python semantics are shallowly embedded: exceptions become `Except`,
JSON values become an inductive `Json`, floats become exact rationals,
and the network / filesystem environment is passed in explicitly as
data describing the behaviour of each HTTP interaction.
-/

/-! ## Python string primitives (for `utils.parse_video_uri`)

Python `str.replace(old, new)` replaces every non-overlapping occurrence
of `old`, scanning left to right.  We model strings as `List Char`.
-/

/-- Test whether `p` occurs as a contiguous infix of `s`?
(Model of Python `p in s` for strings; `p` is assumed non-empty.) -/
def containsSub (p : List Char) : List Char → Bool
  | [] => p.isPrefixOf []
  | c :: t => p.isPrefixOf (c :: t) || containsSub p t

/-- Worker for `replaceAll`, structurally recursive on a fuel argument so
that it is kernel-reducible; every step consumes at least one character,
so fuel `s.length` always suffices. -/
def replaceAllGo (p r : List Char) : Nat → List Char → List Char
  | _, [] => []
  | 0, s => s
  | fuel + 1, c :: t =>
    if p ≠ [] ∧ p.isPrefixOf (c :: t) then
      r ++ replaceAllGo p r fuel (t.drop (p.length - 1))
    else
      c :: replaceAllGo p r fuel t

/-- Model of Python `str.replace(p, r)`: replace every non-overlapping
occurrence of `p` in `s` by `r`, scanning left to right.  (For empty `p`
Python would insert `r` between every character; the source never calls
`replace` with an empty pattern, and we return `s` unchanged there.) -/
def replaceAll (p r s : List Char) : List Char :=
  replaceAllGo p r s.length s

/-- The vendor host that `parse_video_uri` strips
(`https://generativelanguage.googleapis.com/`). -/
def googleHost : String := "https://generativelanguage.googleapis.com/"

/-- Model of `utils.parse_video_uri` (source `src/video_generation/utils.py`):

```python
if video_uri.startswith("https://generativelanguage.googleapis.com/"):
    relative_path = video_uri.replace("https://generativelanguage.googleapis.com/", "")
else:
    relative_path = video_uri
if base_url.endswith("/v1beta"):
    base_path = base_url.replace("/v1beta", "/download")
else:
    base_path = base_url
return f"{base_path}/{relative_path}"
```
-/
def parse_video_uri (videoUri baseUrl : String) : String :=
  let relativePath : String :=
    if googleHost.toList.isPrefixOf videoUri.toList then
      ⟨replaceAll googleHost.toList [] videoUri.toList⟩
    else videoUri
  let basePath : String :=
    if List.isSuffixOf "/v1beta".toList baseUrl.toList then
      ⟨replaceAll "/v1beta".toList "/download".toList baseUrl.toList⟩
    else baseUrl
  basePath ++ "/" ++ relativePath

/-- Modelled from the spec (§4.5): the pure string transform the spec
mandates — strip the vendor host from the front of the URI if present
(otherwise the URI is already relative), rewrite the base path's single
**trailing** `/v1beta` segment to `/download` (no-op when the base does
not end in `/v1beta`), and return `{rewritten_base}/{relative_path}`. -/
def parseVideoUriSpec (videoUri baseUrl : String) : String :=
  let relativePath : String :=
    if googleHost.toList.isPrefixOf videoUri.toList then
      ⟨videoUri.toList.drop googleHost.toList.length⟩
    else videoUri
  let basePath : String :=
    if List.isSuffixOf "/v1beta".toList baseUrl.toList then
      ⟨baseUrl.toList.take (baseUrl.toList.length - "/v1beta".toList.length) ++
        "/download".toList⟩
    else baseUrl
  basePath ++ "/" ++ relativePath

/-! ## Polling configuration and the backoff interval sequence

Constants from `src/video_generation/config.py`.  Python floats are
modelled as exact rationals; `1.2` denotes the rational `6/5`, which
preserves the qualitative contract (start, multiplier, cap, monotonicity).
-/

def INITIAL_POLL_INTERVAL : ℚ := 10

def MAX_POLL_INTERVAL : ℚ := 30

def POLL_BACKOFF_MULTIPLIER : ℚ := 1.2

def DEFAULT_MAX_WAIT_TIME : ℚ := 600

def MAX_RETRY_ATTEMPTS : Nat := 3

/-- One backoff update of `_poll_operation`:
`poll_interval = min(poll_interval * POLL_BACKOFF_MULTIPLIER, MAX_POLL_INTERVAL)`. -/
def nextInterval (i : ℚ) : ℚ := min (i * POLL_BACKOFF_MULTIPLIER) MAX_POLL_INTERVAL

/-- The sequence of sleep intervals used within one poll run:
`poll_interval` starts at `INITIAL_POLL_INTERVAL` and is updated by
`nextInterval` after every tick. -/
def pollIntervals : Nat → ℚ
  | 0 => INITIAL_POLL_INTERVAL
  | n + 1 => nextInterval (pollIntervals n)

/-! ## JSON values, Python exceptions, and Python dynamic operations

`Json` models the parsed response bodies the generator inspects.  `PyExc`
models the exceptions that can flow through the orchestrator: the repo's
own exception hierarchy from `src/video_generation/exceptions.py`
(`APIError`, `TimeoutError`, `DownloadError`, `ValidationError` — each with
a `details` dict) plus the foreign exceptions the code can raise or meet
(httpx transport errors, `httpx.HTTPStatusError`, `KeyError`, `IndexError`,
`TypeError`, `AttributeError`, and pydantic's `ValueError`s).
-/

inductive Json where
  | null
  | bool (b : Bool)
  | num (q : ℚ)
  | str (s : String)
  | arr (elems : List Json)
  | obj (fields : List (String × Json))

abbrev PyDict := List (String × Json)

inductive PyExc where
  | transport (msg : String)
  | httpStatus (code : Nat) (msg : String)
  | keyError (key : String)
  | indexError
  | typeError (msg : String)
  | attributeError (msg : String)
  | valueError (msg : String)
  | apiError (msg : String) (details : PyDict)
  | timeoutExc (msg : String) (details : PyDict)
  | downloadError (msg : String) (details : PyDict)
  | validationError (msg : String) (details : PyDict)

mutual

/-- Approximate model of Python `repr` for parsed-JSON values, used only to
render exception messages (`f"{e}"` and the `Details:` suffix of
`VideoGenerationError.__str__`). -/
def renderJson : Json → String
  | .null => "None"
  | .bool true => "True"
  | .bool false => "False"
  | .num q => toString q
  | .str s => "\"" ++ s ++ "\""
  | .arr xs => "[" ++ renderJsonList xs ++ "]"
  | .obj kvs => "\x7b" ++ renderJsonObj kvs ++ "\x7d"

def renderJsonList : List Json → String
  | [] => ""
  | [x] => renderJson x
  | x :: y :: xs => renderJson x ++ ", " ++ renderJsonList (y :: xs)

def renderJsonObj : List (String × Json) → String
  | [] => ""
  | [(k, v)] => "\"" ++ k ++ "\": " ++ renderJson v
  | (k, v) :: kv :: kvs =>
    "\"" ++ k ++ "\": " ++ renderJson v ++ ", " ++ renderJsonObj (kv :: kvs)

end

/-- Model of `VideoGenerationError.__str__`: the message alone when `details` is
empty, otherwise `f"{message} | Details: {details}"`. -/
def vgStr (m : String) (d : PyDict) : String :=
  if d.isEmpty then m else m ++ " | Details: " ++ renderJson (.obj d)

/-- Model of Python `str(e)` for each exception kind. -/
def pyStr : PyExc → String
  | .transport m => m
  | .httpStatus _ m => m
  | .keyError k => "\"" ++ k ++ "\""
  | .indexError => "list index out of range"
  | .typeError m => m
  | .attributeError m => m
  | .valueError m => m
  | .apiError m d => vgStr m d
  | .timeoutExc m d => vgStr m d
  | .downloadError m d => vgStr m d
  | .validationError m d => vgStr m d

/-- Model of `hasattr(e, "details")` / `e.details`: only the repo's
`VideoGenerationError` subclasses carry a structured `details` dict. -/
def PyExc.detailsAttr : PyExc → Option PyDict
  | .apiError _ d => some d
  | .timeoutExc _ d => some d
  | .downloadError _ d => some d
  | .validationError _ d => some d
  | _ => none

/-- Python truthiness for parsed-JSON values. -/
def pyTruthy : Json → Bool
  | .null => false
  | .bool b => b
  | .num q => if q = 0 then false else true
  | .str s => if s = "" then false else true
  | .arr xs => !xs.isEmpty
  | .obj kvs => !kvs.isEmpty

def objLookup : PyDict → String → Option Json
  | [], _ => none
  | (k0, v) :: rest, k => if k0 = k then some v else objLookup rest k

/-- Python `j[k]` for a string key `k`. -/
def pyIndexStr (j : Json) (k : String) : Except PyExc Json :=
  match j with
  | .obj kvs =>
    match objLookup kvs k with
    | some v => .ok v
    | none => .error (.keyError k)
  | .str _ => .error (.typeError "string indices must be integers")
  | .arr _ => .error (.typeError "list indices must be integers or slices, not str")
  | _ => .error (.typeError "object is not subscriptable")

/-- Python `j[i]` for an integer index `i`. -/
def pyIndexNat (j : Json) (i : Nat) : Except PyExc Json :=
  match j with
  | .arr xs =>
    match xs[i]? with
    | some v => .ok v
    | none => .error .indexError
  | .obj _ => .error (.keyError (toString i))
  | .str s =>
    match s.toList[i]? with
    | some c => .ok (.str (String.mk [c]))
    | none => .error .indexError
  | _ => .error (.typeError "object is not subscriptable")

/-- Python `needle in j` for a string `needle`. -/
def pyContains (j : Json) (needle : String) : Except PyExc Bool :=
  match j with
  | .obj kvs => .ok (kvs.any (fun kv => kv.1 == needle))
  | .arr xs =>
    .ok (xs.any (fun e => match e with | .str s => s == needle | _ => false))
  | .str s => .ok (containsSub needle.toList s.toList)
  | _ => .error (.typeError "argument of type is not iterable")

/-- Python `j.get(k, dflt)`; raises `AttributeError` when `j` is not a dict. -/
def dictGet (j : Json) (k : String) (dflt : Json) : Except PyExc Json :=
  match j with
  | .obj kvs => .ok ((objLookup kvs k).getD dflt)
  | _ => .error (.attributeError "object has no attribute get")

/-! ## The poll loop (`VeoVideoGenerator._poll_operation`) -/

/-- The URI extraction at the `done == true` branch:
`data["response"]["generateVideoResponse"]["generatedSamples"][0]["video"]["uri"]`. -/
def extractVideoUri (data : Json) : Except PyExc Json := do
  let resp ← pyIndexStr data "response"
  let gvr ← pyIndexStr resp "generateVideoResponse"
  let samples ← pyIndexStr gvr "generatedSamples"
  let s0 ← pyIndexNat samples 0
  let video ← pyIndexStr s0 "video"
  pyIndexStr video "uri"

/-- Model of `APIError(..., response_data=r)`: it stores `details["response"] = r` only
when `r` is truthy (`exceptions.py`). -/
def apiRespDetails (respData : Json) : PyDict :=
  if pyTruthy respData then [("response", respData)] else []

/-- One observed HTTP interaction of the polling GET. -/
inductive TickOutcome where
  | transportErr (msg : String)
  | statusErr (code : Nat) (msg : String)
  | body (data : Json)

/-- Processing of one successfully-parsed poll response body
(the code inside the `try` after `response.json()`): an `error` key raises
`APIError`; `done` truthy attempts URI extraction, converting only
`KeyError` to `APIError`; otherwise the loop continues (`none`). -/
def handleBody (data : Json) : Except PyExc (Option Json) :=
  match pyContains data "error" with
  | .error e => .error e
  | .ok true =>
    match dictGet data "error" .null with
    | .error e => .error e
    | .ok errv => .error (.apiError "Video generation failed" (apiRespDetails errv))
  | .ok false =>
    match dictGet data "done" (.bool false) with
    | .error e => .error e
    | .ok d =>
      if pyTruthy d then
        match extractVideoUri data with
        | .ok uri => .ok (some uri)
        | .error (.keyError k) =>
          .error (.apiError ("Could not extract video URI: " ++ pyStr (.keyError k))
            (apiRespDetails data))
        | .error e => .error e
      else .ok none

/-- Exact fractions with all operations written over `Int`, so that the
poll loop's time arithmetic is kernel-reducible (Mathlib's `ℚ` instances
are not).  Denominators are kept positive by construction. -/
structure Frac where
  n : Int
  d : Int

def Frac.ofInt (k : Int) : Frac := ⟨k, 1⟩

def Frac.mul (a b : Frac) : Frac := ⟨a.n * b.n, a.d * b.d⟩

def Frac.add (a b : Frac) : Frac := ⟨a.n * b.d + b.n * a.d, a.d * b.d⟩

/-- Decide `a < b` by cross-multiplication (denominators positive). -/
def Frac.blt (a b : Frac) : Bool := a.n * b.d < b.n * a.d

/-- Decide `a ≤ b` by cross-multiplication (denominators positive). -/
def Frac.ble (a b : Frac) : Bool := a.n * b.d ≤ b.n * a.d

/-- Python `min(a, b)`: `b` when `b < a`, else `a`. -/
def Frac.minF (a b : Frac) : Frac := if Frac.blt b a then b else a

def Frac.toRat (a : Frac) : ℚ := (a.n : ℚ) / (a.d : ℚ)

def Frac.isZero (a : Frac) : Bool := a.n = 0

/-- Display of a fraction in an f-string (integers render without a
denominator, as the `int`-valued `max_wait_time` does in the source). -/
def fracStr (a : Frac) : String :=
  if a.d = 1 then toString a.n else toString a.n ++ "/" ++ toString a.d

/-- Model of `min(poll_interval * POLL_BACKOFF_MULTIPLIER, MAX_POLL_INTERVAL)` on
the executable representation (`1.2 = 6/5`, `30`). -/
def nextIntervalF (i : Frac) : Frac := Frac.minF (Frac.mul i ⟨6, 5⟩) (Frac.ofInt 30)

structure PollSt where
  elapsed : Frac
  interval : Frac

def initPollSt : PollSt := ⟨Frac.ofInt 0, Frac.ofInt 10⟩

/-- Sleep then backoff: `await asyncio.sleep(poll_interval)` followed by
`poll_interval = min(poll_interval * POLL_BACKOFF_MULTIPLIER, MAX_POLL_INTERVAL)`. -/
def advance (st : PollSt) : PollSt := ⟨Frac.add st.elapsed st.interval, nextIntervalF st.interval⟩

def timeoutDetails (elapsed : Frac) : PyDict :=
  if Frac.isZero elapsed then [] else [("elapsed_time", .num elapsed.toRat)]

inductive PollOutcome where
  | success (uri : Json)
  | exc (e : PyExc)
  | ranOut

/-- Model of the `while True` loop of `_poll_operation`, driven by a finite
list of observed tick outcomes (elapsed wall time is the accumulated sleep
time).  `ranOut` marks a run whose observation list ended before the loop
reached a terminal state (no counterpart in the code, whose loop only exits
through a terminal state). -/
def pollRun (maxWait : Frac) : PollSt → List TickOutcome → PollOutcome
  | st, ticks =>
    if Frac.ble maxWait st.elapsed then
      .exc (.timeoutExc ("Operation timed out after " ++ fracStr maxWait ++ " seconds")
        (timeoutDetails st.elapsed))
    else
      match ticks with
      | [] => .ranOut
      | .transportErr m :: _ => .exc (.transport m)
      | .statusErr _ _ :: rest => pollRun maxWait (advance st) rest
      | .body data :: rest =>
        match handleBody data with
        | .error e => .exc e
        | .ok (some uri) => .success uri
        | .ok none => pollRun maxWait (advance st) rest

def maxWaitF : Frac := Frac.ofInt 600

/-- The interval sequence of the executable loop state. -/
def pollIntervalsF : Nat → Frac
  | 0 => Frac.ofInt 10
  | n + 1 => nextIntervalF (pollIntervalsF n)

/-! ## C4 and C5: behaviour of single poll ticks -/

/-- A well-formed `done == true` body with the full expected nested path. -/
def doneBody : Json :=
  .obj [("done", .bool true),
        ("response", .obj [("generateVideoResponse",
          .obj [("generatedSamples",
            .arr [.obj [("video", .obj [("uri", .str "files/x")])]])])])]

/-- A `done == true` body whose `generatedSamples` list is empty. -/
def emptySamplesBody : Json :=
  .obj [("done", .bool true),
        ("response", .obj [("generateVideoResponse",
          .obj [("generatedSamples", .arr [])])])]

def isApiError : PyExc → Bool
  | .apiError _ _ => true
  | _ => false

/-! ## The download step (`VeoVideoGenerator._download_video`)

The observable behaviour of one download attempt: the initial response can
carry an HTTP error status (raised by `raise_for_status` before the output
file is opened), the transfer can fail before the file is opened
(`connectFail`), or the body streams a list of chunk sizes and is then
either interrupted by an exception or runs to completion.  The filesystem
state at the target path is `Option Nat` — `some n` for a file of `n`
bytes, `none` for no file. -/

inductive DlBehavior where
  | statusErr (code : Nat)
  | connectFail (msg : String)
  | stream (chunks : List Nat) (interrupt : Option String)

structure DlOut where
  result : Except PyExc Nat
  fs : Option Nat

/-- Model of `DownloadError(msg, video_uri=uri)`: it stores `details["video_uri"]` only
when `uri` is truthy; `partial_bytes` is never passed by `generator.py`. -/
def mkDlErrDetails (uri : String) : PyDict :=
  if uri = "" then [] else [("video_uri", .str uri)]

/-- Model of the body of `_download_video` (one attempt).  All failure
paths funnel through the two `except` clauses: `httpx.HTTPStatusError`
becomes a `DownloadError` annotated with the status and leaves the
filesystem untouched (no file was opened yet); every other exception —
including the `DownloadError("Downloaded file is empty")` raised after a
zero-byte completed stream, whose file was already unlinked — reaches the
generic `except Exception` clause, which unlinks any file at the target
path and re-raises as `DownloadError(f"Download failed: {e}")`. -/
def downloadVideo (uri : String) (fs0 : Option Nat) : DlBehavior → DlOut
  | .statusErr code =>
    ⟨.error (.downloadError ("Download failed with status " ++ toString code)
      (mkDlErrDetails uri)), fs0⟩
  | .connectFail m =>
    ⟨.error (.downloadError ("Download failed: " ++ m) (mkDlErrDetails uri)), none⟩
  | .stream _ (some m) =>
    ⟨.error (.downloadError ("Download failed: " ++ m) (mkDlErrDetails uri)), none⟩
  | .stream cs none =>
    let size := cs.foldl (· + ·) 0
    if size = 0 then
      ⟨.error (.downloadError
        ("Download failed: " ++
          pyStr (.downloadError "Downloaded file is empty" (mkDlErrDetails uri)))
        (mkDlErrDetails uri)), none⟩
    else ⟨.ok size, some size⟩

/-- The `tenacity` predicate on `_download_video`:
`retry_if_exception_type(httpx.HTTPError)` — transport errors and
`HTTPStatusError` are `httpx.HTTPError` subclasses, nothing else is. -/
def tenacityShouldRetry : PyExc → Bool
  | .transport _ => true
  | .httpStatus _ _ => true
  | _ => false

/-- Model of the `tenacity` retry loop (`stop_after_attempt`, `reraise=True`):
runs attempts off the behaviour list, retrying only when the raised
exception satisfies the retry predicate and attempts remain; returns the
final outcome together with the number of attempts made. -/
def runRetry (maxAttempts : Nat) (run : Option Nat → DlBehavior → DlOut) :
    Option Nat → List DlBehavior → Nat → DlOut × Nat
  | fs, [], used => (⟨.error (.transport "retry behaviours exhausted"), fs⟩, used)
  | fs, b :: rest, used =>
    match (run fs b).result with
    | .ok _ => (run fs b, used + 1)
    | .error e =>
      if tenacityShouldRetry e ∧ used + 1 < maxAttempts then
        runRetry maxAttempts run (run fs b).fs rest (used + 1)
      else (run fs b, used + 1)

/-- Model of `_download_video` as called by the orchestrator: the decorated
(retry-wrapped) download. -/
def downloadVideoRetried (uri : String) (fs0 : Option Nat)
    (bs : List DlBehavior) : DlOut × Nat :=
  runRetry MAX_RETRY_ATTEMPTS (downloadVideo uri) fs0 bs 0

def isDownloadError : PyExc → Bool
  | .downloadError _ _ => true
  | _ => false

/-! ## Filename generation (`utils.sanitize_filename`, `utils.generate_filename`) -/

/-- Python `str.strip()` (remove leading/trailing whitespace). -/
def pyStrip (s : String) : String :=
  ⟨((s.toList.dropWhile Char.isWhitespace).reverse.dropWhile Char.isWhitespace).reverse⟩

def pyLower (s : String) : String := ⟨s.toList.map Char.toLower⟩

/-- Model of `pathlib.PurePath.suffix`: the extension of the final path component,
from its last dot, empty when that dot is the first or last character. -/
def pathSuffix (s : String) : String :=
  let name := (s.toList.reverse.takeWhile (fun c => c ≠ '/')).reverse
  match name.reverse.findIdx? (fun c => c == '.') with
  | none => ""
  | some j =>
    let i := name.length - 1 - j
    if 0 < i ∧ i < name.length - 1 then ⟨name.drop i⟩ else ""

/-- Membership in `\w` over ASCII: alphanumerics and underscore. -/
def isWordChar (c : Char) : Bool := c.isAlphanum || c = '_'

/-- Characters kept by `re.sub(r"[^\w\s-]", "", text)`. -/
def sanitizeKeep (c : Char) : Bool := isWordChar c || c.isWhitespace || c = '-'

def isSpaceUnd (c : Char) : Bool := c.isWhitespace || c = '_'

/-- Model of `re.sub(r"[\s_]+", "_", s)`: collapse each run of whitespace or
underscores into a single underscore (state records whether we are inside
such a run). -/
def collapseGo : Bool → List Char → List Char
  | _, [] => []
  | inRun, c :: t =>
    if isSpaceUnd c then
      if inRun then collapseGo true t else '_' :: collapseGo true t
    else c :: collapseGo false t

def trimUnd (s : List Char) : List Char :=
  ((s.dropWhile (fun c => c = '_')).reverse.dropWhile (fun c => c = '_')).reverse

def rstripUnd (s : List Char) : List Char :=
  (s.reverse.dropWhile (fun c => c = '_')).reverse

/-- Model of `utils.sanitize_filename`. -/
def sanitize_filename (text : String) (maxLength : Nat) : String :=
  let kept := text.toList.filter sanitizeKeep
  let collapsed := collapseGo false kept
  let stripped := trimUnd collapsed
  let truncated :=
    if maxLength < stripped.length then rstripUnd (stripped.take maxLength)
    else stripped
  if truncated.isEmpty then "video" else ⟨truncated⟩

/-- Model of `utils.generate_filename` (the Boolean `timestamp` flag is
`some t` for `True` observed at Unix time `t`, `none` for `False`). -/
def generate_filename (prompt : String) (index : Option Nat)
    (timestamp : Option Nat) : String :=
  let safe := sanitize_filename prompt 30
  let parts := ["veo", safe] ++
    (match index with | some i => [toString i] | none => []) ++
    (match timestamp with | some t => [toString t] | none => [])
  String.intercalate "_" parts ++ ".mp4"

/-! ## Request validation (`models.VideoRequest` with its pydantic validators) -/

def validImageExts : List String := [".jpg", ".jpeg", ".png", ".gif", ".bmp", ".webp"]

/-- The `image_path` validator: the file must exist (`imageExists` is the
filesystem observation) and carry a recognised image extension. -/
def validateImage (imagePath : Option String) (imageExists : Bool) :
    Except PyExc (Option String) :=
  match imagePath with
  | none => .ok none
  | some ip =>
    if imageExists then
      if validImageExts.contains (pyLower (pathSuffix ip)) then .ok (some ip)
      else .error (.valueError "Image file must have a valid image extension")
    else .error (.valueError ("Image file does not exist: " ++ ip))

/-- Model of constructing `VideoRequest(prompt=..., output_path=...,
image_path=...)`: pydantic's length constraints on `prompt`
(`min_length=1`, `max_length=2000`), the prompt strip-and-reject-blank
validator, the `.mp4` output-extension validator, and the image validator.
Returns the normalized (stripped) prompt. -/
def validateRequest (prompt : String) (outputPath imagePath : Option String)
    (imageExists : Bool) :
    Except PyExc (String × Option String × Option String) :=
  if prompt.length < 1 then
    .error (.valueError "String should have at least 1 character")
  else if 2000 < prompt.length then
    .error (.valueError "String should have at most 2000 characters")
  else
    let p := pyStrip prompt
    if p = "" then .error (.valueError "Prompt cannot be empty or whitespace")
    else
      match outputPath with
      | some o =>
        if pyLower (pathSuffix o) = ".mp4" then
          (validateImage imagePath imageExists).map (fun img => (p, some o, img))
        else .error (.valueError "Output file must have .mp4 extension")
      | none => (validateImage imagePath imageExists).map (fun img => (p, none, img))

/-! ## Upload and submission steps -/

/-- Observed behaviour of the upload HTTP interaction inside
`_upload_image`: any exception raised in its body (`raiseExc`), or a
2xx JSON response whose `file.uri` is present-and-truthy (`respUri`) or
absent/falsy (`respNoUri`). -/
inductive UploadBehavior where
  | raiseExc (e : PyExc)
  | respUri (uri : String)
  | respNoUri

/-- Model of `_upload_image`: every exception in the body is caught and
re-raised as `APIError(f"Image upload failed: {e}")` (so the decorator's
`httpx.HTTPError` retry predicate never matches); a missing or falsy
`file.uri` returns `None` without raising. -/
def uploadImage : UploadBehavior → Except PyExc (Option String)
  | .raiseExc e => .error (.apiError ("Image upload failed: " ++ pyStr e) [])
  | .respUri u => if u = "" then .ok none else .ok (some u)
  | .respNoUri => .ok none

/-- Observed behaviour of the submission POST inside `_initiate_generation`. -/
inductive InitBehavior where
  | transportErr (msg : String)
  | statusErr (code : Nat) (excMsg : String) (errData : Json)
  | okBody (body : Json)

/-- Model of `APIError(msg, status_code=c, response_data=r)` detail construction:
each key stored only when the value is truthy. -/
def apiDetails (code : Option Nat) (respData : Option Json) : PyDict :=
  (match code with
   | some c => if c = 0 then [] else [("status_code", .num (c : ℚ))]
   | none => []) ++
  (match respData with
   | some r => apiRespDetails r
   | none => [])

/-- Rendering of a JSON value in an f-string (strings verbatim). -/
def jsonFString : Json → String
  | .str s => s
  | v => renderJson v

/-- Model of `_initiate_generation`: empty-after-strip prompt raises
`ValidationError`; an HTTP status error is wrapped into `APIError` with
status and parsed body; a transport error propagates raw (re-raised by
`tenacity` after its attempts); a 2xx body without a truthy `name` raises
`APIError`, otherwise the operation name is returned. -/
def initiate_generation (prompt : String) : InitBehavior → Except PyExc String
  | b =>
    if pyStrip prompt = "" then
      .error (.validationError "Prompt cannot be empty" [("field", .str "prompt")])
    else
      match b with
      | .transportErr m => .error (.transport m)
      | .statusErr code excMsg errData =>
        .error (.apiError ("API request failed: " ++ excMsg)
          (apiDetails (some code) (some errData)))
      | .okBody body =>
        match dictGet body "name" .null with
        | .error e => .error e
        | .ok nameV =>
          if pyTruthy nameV then .ok (jsonFString nameV)
          else .error (.apiError "No operation name returned from API"
            (apiDetails (some 200) (some body)))

/-! ## The single-job orchestrator (`generate_video_async`) -/

/-- Model of `models.VideoResponse` (pydantic): fields absent from a constructor
call default to `None`; here every field is written explicitly. -/
structure VideoResponse where
  success : Bool
  video_path : Option String
  operation_name : Option String
  video_uri : Option String
  file_size_mb : Option ℚ
  generation_time : Option ℚ
  error : Option String
  error_details : Option PyDict

/-- The environment of one job: the filesystem observation for the image
check, the behaviour of each HTTP interaction, the Unix time used for a
generated filename, and the measured wall-clock elapsed time. -/
structure JobEnv where
  imageExists : Bool
  upload : UploadBehavior
  initiate : InitBehavior
  ticks : List TickOutcome
  dls : List DlBehavior
  now : Nat
  elapsedTime : ℚ

/-- The body of the `try` block of `generate_video_async`: validate,
generate a default output name when none is given, optionally upload,
submit, poll to a terminal state, download; build the success response.
(The `ranOut` poll case is a modelling artifact of finite observation
lists — the code's loop only exits through a terminal state — and is
excluded by the `pollCompletes` hypothesis wherever it matters.) -/
def generateVideoBody (env : JobEnv) (prompt : String)
    (outputPath imagePath : Option String) : Except PyExc VideoResponse :=
  match validateRequest prompt outputPath imagePath env.imageExists with
  | .error e => .error e
  | .ok (p, outP, imgP) =>
    match (match imgP with
           | some _ => uploadImage env.upload
           | none => .ok none) with
    | .error e => .error e
    | .ok _imageUri =>
      match initiate_generation p env.initiate with
      | .error e => .error e
      | .ok opName =>
        match pollRun maxWaitF initPollSt env.ticks with
        | .ranOut => .error (.transport "poll observation exhausted")
        | .exc e => .error e
        | .success uriJ =>
          match uriJ with
          | .str uri =>
            match (downloadVideoRetried uri none env.dls).1.result with
            | .error e => .error e
            | .ok size =>
              .ok { success := true,
                    video_path := some (match outP with
                      | some o => o
                      | none => generate_filename prompt none (some env.now)),
                    operation_name := some opName, video_uri := some uri,
                    file_size_mb := some ((size : ℚ) / (1024 * 1024)),
                    generation_time := some env.elapsedTime,
                    error := none, error_details := none }
          | _ => .error (.attributeError "object has no attribute startswith")

/-- Model of `generate_video_async`: the `except Exception` boundary turns
any exception from the body into a failed `VideoResponse` carrying
`error=str(e)` and `error_details = e.details if hasattr(e, "details") else
an empty dict`. -/
def generate_video_async (env : JobEnv) (prompt : String)
    (outputPath imagePath : Option String) : VideoResponse :=
  match generateVideoBody env prompt outputPath imagePath with
  | .ok r => r
  | .error e =>
    { success := false, video_path := none, operation_name := none,
      video_uri := none, file_size_mb := none,
      generation_time := some env.elapsedTime,
      error := some (pyStr e),
      error_details := some ((PyExc.detailsAttr e).getD []) }

/-- The poll observation list is long enough for the loop to reach a
terminal state (always true of the real loop). -/
def pollCompletes (ticks : List TickOutcome) : Bool :=
  match pollRun maxWaitF initPollSt ticks with
  | .ranOut => false
  | _ => true

def tickWf : TickOutcome → Bool
  | .transportErr m => !(m == "")
  | _ => true

/-- Well-formedness of the environment's foreign exceptions: transport
errors (the only exceptions whose message reaches `str(e)` without a
literal prefix) carry a non-empty message, and the download behaviour list
is non-empty (the retry loop makes at least one attempt). -/
def envWf (env : JobEnv) : Bool :=
  (match env.initiate with
   | .transportErr m => !(m == "")
   | _ => true) &&
  env.ticks.all tickWf &&
  !env.dls.isEmpty

/-- An environment whose submission POST fails with a transport error. -/
def jobEnvFail : JobEnv :=
  { imageExists := false, upload := .respNoUri,
    initiate := .transportErr "boom",
    ticks := [.body doneBody], dls := [.stream [7] none],
    now := 1700000000, elapsedTime := 3 }

/-- An environment in which every step succeeds. -/
def jobEnvOk : JobEnv :=
  { imageExists := false, upload := .respNoUri,
    initiate := .okBody (.obj [("name", .str "operations/op1")]),
    ticks := [.body doneBody], dls := [.stream [7] none],
    now := 1700000000, elapsedTime := 3 }

/-! ## Batch orchestration (`generate_batch`) and result classification
(`models.VideoResponse.is_success`, `models.BatchResult`) -/

/-- Model of `VideoResponse.is_success`: `self.success and self.video_path is not None`. -/
def is_success (r : VideoResponse) : Bool := r.success && r.video_path.isSome

/-- Model of `models.BatchResult`. -/
structure BatchResult where
  total : Nat
  successful : Nat
  failed : Nat
  results : List VideoResponse
  total_time : Option ℚ

/-- Model of `BatchResult.get_successful_videos`. -/
def get_successful_videos (b : BatchResult) : List VideoResponse :=
  b.results.filter (fun r => is_success r)

/-- Model of `BatchResult.get_failed_videos`. -/
def get_failed_videos (b : BatchResult) : List VideoResponse :=
  b.results.filter (fun r => !is_success r)

/-- The environment of a batch run: one job environment per index, the
optional per-index image paths, the output directory, the Unix time used
for generated filenames, and the measured wall time. -/
structure BatchEnv where
  jobEnvs : Nat → JobEnv
  imagePaths : Option (List (Option String))
  outputDir : String
  now : Nat
  totalTime : ℚ

/-- Model of `image_paths[index] if image_paths and index < len(image_paths) else
None` (an empty list is falsy, and then the index guard is also false). -/
def batchImagePath (env : BatchEnv) (i : Nat) : Option String :=
  match env.imagePaths with
  | none => none
  | some ips => if i < ips.length then ips.getD i none else none

/-- The job launched for index `i` by `_generate_with_limit`: output file
`output_dir / generate_filename(prompt, index=index)`, per-index image
path, then `generate_video_async`. -/
def batchJob (env : BatchEnv) (prompts : List String) (i : Nat) : VideoResponse :=
  generate_video_async (env.jobEnvs i) (prompts.getD i "")
    (some (env.outputDir ++ "/" ++
      generate_filename (prompts.getD i "") (some i) (some env.now)))
    (batchImagePath env i)

def defaultResponse : VideoResponse :=
  { success := false, video_path := none, operation_name := none,
    video_uri := none, file_size_mb := none, generation_time := none,
    error := none, error_details := none }

/-- Model of `asyncio.gather(*tasks)`: the scheduler completes the jobs in
some arbitrary `order` (each completion records its input index), and
`gather` returns the results aligned to input order, independent of
completion order. -/
def gatherByIndex (jobs : Nat → VideoResponse) (n : Nat)
    (order : List Nat) : List VideoResponse :=
  (List.range n).map
    (fun i => ((order.map (fun j => (j, jobs j))).lookup i).getD defaultResponse)

/-- The statistics aggregation of `generate_batch`:
`successful = sum(1 for r in results if r.is_success)`,
`failed = len(results) - successful`, `total = len(prompts)`. -/
def aggregate (prompts : List String) (results : List VideoResponse)
    (totalTime : ℚ) : BatchResult :=
  { total := prompts.length,
    successful := results.countP (fun r => is_success r),
    failed := results.length - results.countP (fun r => is_success r),
    results := results,
    total_time := some totalTime }

/-- Model of `generate_batch`: run all jobs (completed in scheduler order
`order`), gather by input index, aggregate. -/
def generate_batch (env : BatchEnv) (prompts : List String)
    (order : List Nat) : BatchResult :=
  aggregate prompts (gatherByIndex (batchJob env prompts) prompts.length order)
    env.totalTime

def batchEnvOk : BatchEnv :=
  { jobEnvs := fun _ => jobEnvOk, imagePaths := none, outputDir := "out",
    now := 1700000000, totalTime := 9 }

def respTrueNoPath : VideoResponse :=
  { success := true, video_path := none, operation_name := none,
    video_uri := none, file_size_mb := none, generation_time := none,
    error := none, error_details := none }

def respTrueWithPath : VideoResponse :=
  { success := true, video_path := some "v.mp4", operation_name := none,
    video_uri := none, file_size_mb := none, generation_time := none,
    error := none, error_details := none }

/-! ## Theorems -/

theorem replaceAllGo_fuel (p r : List Char) :
    ∀ (m n : Nat) (s : List Char), s.length ≤ m → s.length ≤ n →
      replaceAllGo p r m s = replaceAllGo p r n s := by
  intro m
  induction m with
  | zero =>
    intro n s hm _
    cases s with
    | nil => cases n <;> rfl
    | cons c t => simp at hm
  | succ m ih =>
    intro n s hm hn
    cases s with
    | nil => cases n <;> rfl
    | cons c t =>
      cases n with
      | zero => simp at hn
      | succ n =>
        simp only [replaceAllGo]
        split
        · have h1 : (t.drop (p.length - 1)).length ≤ m := by
            have := List.length_drop (p.length - 1) t
            simp only [List.length_cons] at hm
            omega
          have h2 : (t.drop (p.length - 1)).length ≤ n := by
            have := List.length_drop (p.length - 1) t
            simp only [List.length_cons] at hn
            omega
          rw [ih n _ h1 h2]
        · have h1 : t.length ≤ m := by simp only [List.length_cons] at hm; omega
          have h2 : t.length ≤ n := by simp only [List.length_cons] at hn; omega
          rw [ih n t h1 h2]

theorem replaceAll_nil (p r : List Char) : replaceAll p r [] = [] := rfl

theorem replaceAll_cons (p r : List Char) (c : Char) (t : List Char) :
    replaceAll p r (c :: t) =
      if p ≠ [] ∧ p.isPrefixOf (c :: t) then
        r ++ replaceAll p r (t.drop (p.length - 1))
      else
        c :: replaceAll p r t := by
  show replaceAllGo p r (t.length + 1) (c :: t) = _
  simp only [replaceAllGo]
  split
  · rw [replaceAllGo_fuel p r t.length (t.drop (p.length - 1)).length
      (t.drop (p.length - 1)) (by have := List.length_drop (p.length - 1) t; omega)
      (Nat.le_refl _)]
    rfl
  · rfl

theorem isPrefixOf_append_self : ∀ (p t : List Char), p.isPrefixOf (p ++ t) = true := by
  intro p t
  induction p with
  | nil => simp [List.isPrefixOf]
  | cons a as ih => simp [List.isPrefixOf, ih]

theorem isPrefixOf_eq_append :
    ∀ (p s : List Char), p.isPrefixOf s = true → s = p ++ s.drop p.length := by
  intro p
  induction p with
  | nil => intro s _; rfl
  | cons a as ih =>
    intro s h
    cases s with
    | nil => simp [List.isPrefixOf] at h
    | cons b bs =>
      simp only [List.isPrefixOf, Bool.and_eq_true, beq_iff_eq] at h
      obtain ⟨rfl, h2⟩ := h
      simpa using ih bs h2

theorem replaceAll_no_occur (p r : List Char) :
    ∀ s, containsSub p s = false → replaceAll p r s = s := by
  intro s
  induction s with
  | nil => intro _; rfl
  | cons c t ih =>
    intro h
    simp only [containsSub, Bool.or_eq_false_iff] at h
    rw [replaceAll_cons, if_neg (by simp [h.1]), ih h.2]

theorem replaceAll_strip (p r t : List Char) (hp : p ≠ [])
    (h : containsSub p t = false) : replaceAll p r (p ++ t) = r ++ t := by
  cases p with
  | nil => exact absurd rfl hp
  | cons p0 p' =>
    rw [List.cons_append, replaceAll_cons,
      if_pos ⟨hp, by rw [← List.cons_append]; exact isPrefixOf_append_self _ _⟩]
    have hdrop : (p' ++ t).drop ((p0 :: p').length - 1) = t := by
      simp only [List.length_cons, Nat.add_sub_cancel]
      exact List.drop_left p' t
    rw [hdrop, replaceAll_no_occur (p0 :: p') r t h]

theorem replaceAll_tail (p r : List Char) (hp : p ≠ []) :
    ∀ h : List Char, (∀ i, i < h.length → p.isPrefixOf ((h ++ p).drop i) = false) →
      replaceAll p r (h ++ p) = h ++ r := by
  intro h
  induction h with
  | nil =>
    intro _
    have hc : containsSub p ([] : List Char) = false := by
      cases p with
      | nil => exact absurd rfl hp
      | cons a as => rfl
    simpa using replaceAll_strip p r [] hp hc
  | cons c h' ih =>
    intro hyp
    have h0 : p.isPrefixOf (c :: (h' ++ p)) = false := by
      have := hyp 0 (by simp)
      simpa using this
    rw [List.cons_append, replaceAll_cons, if_neg (by simp [h0])]
    rw [ih (fun i hi => by
      have := hyp (i + 1) (by simp only [List.length_cons]; omega)
      simpa using this), List.cons_append]

/-- C7 (counterexample): `parse_video_uri` is **not** the spec's transform
bit-exactly.  Python `str.replace` replaces every occurrence, so for a base
URL in which `/v1beta` occurs twice (`https://h/v1beta/v1beta`), the code
rewrites both occurrences to `/download`, while the spec's transform rewrites
only the trailing segment.  The two results differ at this concrete input. -/
theorem c7_counterexample :
    parse_video_uri "files/abc" "https://h/v1beta/v1beta" =
      "https://h/download/download/files/abc" ∧
    parseVideoUriSpec "files/abc" "https://h/v1beta/v1beta" =
      "https://h/v1beta/download/files/abc" ∧
    parse_video_uri "files/abc" "https://h/v1beta/v1beta" ≠
      parseVideoUriSpec "files/abc" "https://h/v1beta/v1beta" := by
  refine ⟨by decide, by decide, by decide⟩

/-- C7 (amended): `parse_video_uri` equals the spec's transform whenever
(a) if the URI starts with the vendor host, the host string does not occur
again in the remainder of the URI, and (b) if the base URL ends in
`/v1beta`, the substring `/v1beta` does not occur in the base before its
trailing position.  (Python `str.replace` replaces all occurrences, so the
claim's "bit-exact" equality only holds when each pattern occurs once.) -/
theorem c7_amended (videoUri baseUrl : String)
    (h1 : googleHost.toList.isPrefixOf videoUri.toList = true →
      containsSub googleHost.toList
        (videoUri.toList.drop googleHost.toList.length) = false)
    (h2 : List.isSuffixOf "/v1beta".toList baseUrl.toList = true →
      ∀ i, i < baseUrl.toList.length - "/v1beta".toList.length →
        List.isPrefixOf "/v1beta".toList (baseUrl.toList.drop i) = false) :
    parse_video_uri videoUri baseUrl = parseVideoUriSpec videoUri baseUrl := by
  unfold parse_video_uri parseVideoUriSpec
  have hrel :
      (if googleHost.toList.isPrefixOf videoUri.toList then
        (⟨replaceAll googleHost.toList [] videoUri.toList⟩ : String)
      else videoUri) =
      (if googleHost.toList.isPrefixOf videoUri.toList then
        (⟨videoUri.toList.drop googleHost.toList.length⟩ : String)
      else videoUri) := by
    by_cases hpre : googleHost.toList.isPrefixOf videoUri.toList = true
    · rw [if_pos hpre, if_pos hpre]
      have hdec := isPrefixOf_eq_append _ _ hpre
      have : replaceAll googleHost.toList [] videoUri.toList =
          videoUri.toList.drop googleHost.toList.length := by
        calc replaceAll googleHost.toList [] videoUri.toList
            = replaceAll googleHost.toList []
                (googleHost.toList ++ videoUri.toList.drop googleHost.toList.length) := by
              rw [← hdec]
          _ = [] ++ videoUri.toList.drop googleHost.toList.length :=
              replaceAll_strip _ _ _ (by decide) (h1 hpre)
          _ = _ := by simp
      rw [this]
    · rw [if_neg hpre, if_neg hpre]
  have hbase :
      (if List.isSuffixOf "/v1beta".toList baseUrl.toList then
        (⟨replaceAll "/v1beta".toList "/download".toList baseUrl.toList⟩ : String)
      else baseUrl) =
      (if List.isSuffixOf "/v1beta".toList baseUrl.toList then
        (⟨baseUrl.toList.take (baseUrl.toList.length - "/v1beta".toList.length) ++
          "/download".toList⟩ : String)
      else baseUrl) := by
    by_cases hsuf : List.isSuffixOf "/v1beta".toList baseUrl.toList = true
    · rw [if_pos hsuf, if_pos hsuf]
      obtain ⟨front, hfront⟩ := List.isSuffixOf_iff_suffix.mp hsuf
      have hlen : front.length = baseUrl.toList.length - "/v1beta".toList.length := by
        rw [← hfront]; simp
      have htake : baseUrl.toList.take
          (baseUrl.toList.length - "/v1beta".toList.length) = front := by
        rw [← hlen, ← hfront, List.take_left]
      have hrw : replaceAll "/v1beta".toList "/download".toList baseUrl.toList =
          front ++ "/download".toList := by
        rw [← hfront]
        exact replaceAll_tail _ _ (by decide) front (fun i hi => by
          rw [hfront]
          exact h2 hsuf i (by omega))
      rw [hrw, htake]
    · rw [if_neg hsuf, if_neg hsuf]
  rw [hrel, hbase]

/-- C7 (witness for the amended theorem): at the documented example inputs —
the Google file URI and a base ending in a single `/v1beta` — the two
hypotheses hold and the code's transform agrees with the spec's. -/
theorem c7_amended_witness :
    (googleHost.toList.isPrefixOf
        "https://generativelanguage.googleapis.com/files/a".toList = true →
      containsSub googleHost.toList
        ("https://generativelanguage.googleapis.com/files/a".toList.drop
          googleHost.toList.length) = false) ∧
    (List.isSuffixOf "/v1beta".toList "https://h/gem/v1beta".toList = true →
      ∀ i, i < "https://h/gem/v1beta".toList.length - "/v1beta".toList.length →
        List.isPrefixOf "/v1beta".toList
          ("https://h/gem/v1beta".toList.drop i) = false) ∧
    parse_video_uri "https://generativelanguage.googleapis.com/files/a"
        "https://h/gem/v1beta" =
      parseVideoUriSpec "https://generativelanguage.googleapis.com/files/a"
        "https://h/gem/v1beta" :=
  ⟨by decide, by decide,
    c7_amended "https://generativelanguage.googleapis.com/files/a"
      "https://h/gem/v1beta" (by decide) (by decide)⟩

theorem pollIntervals_bounds : ∀ n, 10 ≤ pollIntervals n ∧ pollIntervals n ≤ 30 := by
  intro n
  induction n with
  | zero => exact ⟨le_refl _, by norm_num [pollIntervals, INITIAL_POLL_INTERVAL]⟩
  | succ n ih =>
    obtain ⟨h1, h2⟩ := ih
    constructor
    · have ha : (10 : ℚ) ≤ pollIntervals n * POLL_BACKOFF_MULTIPLIER := by
        have : (10 : ℚ) * 1 ≤ pollIntervals n * POLL_BACKOFF_MULTIPLIER := by
          apply mul_le_mul h1 (by norm_num [POLL_BACKOFF_MULTIPLIER]) (by norm_num)
            (by linarith)
        linarith
      have hb : (10 : ℚ) ≤ MAX_POLL_INTERVAL := by norm_num [MAX_POLL_INTERVAL]
      exact le_min ha hb
    · exact min_le_right _ _

theorem Frac.toRat_mul (a b : Frac) : (Frac.mul a b).toRat = a.toRat * b.toRat := by
  simp only [Frac.mul, Frac.toRat]
  push_cast
  rw [div_mul_div_comm]

theorem Frac.blt_iff (a b : Frac) (ha : 0 < a.d) (hb : 0 < b.d) :
    Frac.blt a b = true ↔ a.toRat < b.toRat := by
  have ha' : (0 : ℚ) < (a.d : ℚ) := by exact_mod_cast ha
  have hb' : (0 : ℚ) < (b.d : ℚ) := by exact_mod_cast hb
  simp only [Frac.blt, Frac.toRat, decide_eq_true_eq]
  rw [div_lt_div_iff₀ ha' hb']
  constructor
  · intro h; exact_mod_cast h
  · intro h; exact_mod_cast h

/-- The executable backoff step agrees with the rational one. -/
theorem toRat_nextIntervalF (i : Frac) (hd : 0 < i.d) :
    (nextIntervalF i).toRat = nextInterval i.toRat := by
  have hmul : (Frac.mul i ⟨6, 5⟩).toRat = i.toRat * POLL_BACKOFF_MULTIPLIER := by
    rw [Frac.toRat_mul]
    have : (Frac.toRat ⟨6, 5⟩) = POLL_BACKOFF_MULTIPLIER := by
      norm_num [Frac.toRat, POLL_BACKOFF_MULTIPLIER]
    rw [this]
  have hd30 : (Frac.ofInt 30).toRat = 30 := by norm_num [Frac.ofInt, Frac.toRat]
  have hmd : 0 < (Frac.mul i ⟨6, 5⟩).d := by
    simp only [Frac.mul]
    positivity
  unfold nextIntervalF Frac.minF nextInterval
  by_cases hlt : Frac.blt (Frac.ofInt 30) (Frac.mul i ⟨6, 5⟩) = true
  · rw [if_pos hlt, hd30]
    have := (Frac.blt_iff _ _ (by norm_num [Frac.ofInt]) hmd).mp hlt
    rw [hd30, hmul] at this
    rw [MAX_POLL_INTERVAL]
    exact (min_eq_right (le_of_lt this)).symm
  · rw [if_neg hlt, hmul]
    have : ¬ (Frac.ofInt 30).toRat < (Frac.mul i ⟨6, 5⟩).toRat := fun hc =>
      hlt ((Frac.blt_iff _ _ (by norm_num [Frac.ofInt]) hmd).mpr hc)
    rw [hd30, hmul] at this
    rw [MAX_POLL_INTERVAL]
    exact (min_eq_left (not_lt.mp this)).symm

theorem pollIntervalsF_agrees :
    ∀ n, 0 < (pollIntervalsF n).d ∧ (pollIntervalsF n).toRat = pollIntervals n := by
  intro n
  induction n with
  | zero =>
    constructor
    · norm_num [pollIntervalsF, Frac.ofInt]
    · norm_num [pollIntervalsF, Frac.ofInt, Frac.toRat, pollIntervals,
        INITIAL_POLL_INTERVAL]
  | succ n ih =>
    obtain ⟨hd, hagree⟩ := ih
    constructor
    · simp only [pollIntervalsF, nextIntervalF, Frac.minF]
      split
      · norm_num [Frac.ofInt]
      · simp only [Frac.mul]
        positivity
    · show (nextIntervalF (pollIntervalsF n)).toRat = nextInterval (pollIntervals n)
      rw [toRat_nextIntervalF _ hd, hagree]

/-- C6 (confirmed): within one poll run the sleep-interval sequence starts
at 10 s, each subsequent interval is the previous one multiplied by 1.2 and
capped at 30 s, and the sequence is monotone non-decreasing, never exceeds
30 s and never drops below its 10 s start (so it never resets).  The last
conjunct ties the sequence to the executable loop state: the intervals the
loop actually sleeps (`pollIntervalsF`, the `interval` component stepped by
`advance`) are exactly this sequence. -/
theorem c6_poll_backoff_monotone :
    pollIntervals 0 = 10 ∧
    (∀ n, pollIntervals (n + 1) =
      min (pollIntervals n * POLL_BACKOFF_MULTIPLIER) MAX_POLL_INTERVAL) ∧
    (∀ n, pollIntervals n ≤ pollIntervals (n + 1)) ∧
    (∀ n, 10 ≤ pollIntervals n ∧ pollIntervals n ≤ 30) ∧
    (∀ n, (pollIntervalsF n).toRat = pollIntervals n) := by
  refine ⟨rfl, fun n => rfl, fun n => ?_, pollIntervals_bounds,
    fun n => (pollIntervalsF_agrees n).2⟩
  obtain ⟨h1, h2⟩ := pollIntervals_bounds n
  have hge : pollIntervals n ≤ pollIntervals n * POLL_BACKOFF_MULTIPLIER := by
    have hm : POLL_BACKOFF_MULTIPLIER = 6 / 5 := by norm_num [POLL_BACKOFF_MULTIPLIER]
    rw [hm]
    linarith
  exact le_min hge h2

/-- C4 (counterexample): a transport-level error on a poll tick is **not**
swallowed — the run aborts with the transport exception even though the
very next tick would have delivered a successful `done` body.  (The `except`
clause in `_poll_operation` catches only `httpx.HTTPStatusError`.)  By
contrast an HTTP *status* error on a tick is swallowed and the loop
retries, succeeding on the next tick. -/
theorem c4_counterexample :
    pollRun maxWaitF initPollSt [.transportErr "connection refused", .body doneBody] =
      .exc (.transport "connection refused") ∧
    pollRun maxWaitF initPollSt [.statusErr 500 "server error", .body doneBody] =
      .success (.str "files/x") := ⟨rfl, rfl⟩

/-- C4 (amended): within one poll run, an HTTP **status** error raised by a
status-GET tick is swallowed and treated as "not yet done" — the loop
sleeps and retries on the next tick — while a transport-level error
(connection failure or request timeout) aborts the run immediately with
the transport exception. -/
theorem c4_amended (st : PollSt) (rest : List TickOutcome) (code : Nat) (m : String)
    (h : Frac.ble maxWaitF st.elapsed = false) :
    pollRun maxWaitF st (.statusErr code m :: rest) =
      pollRun maxWaitF (advance st) rest ∧
    pollRun maxWaitF st (.transportErr m :: rest) = .exc (.transport m) := by
  constructor
  · show (if Frac.ble maxWaitF st.elapsed then _ else _) = _
    rw [if_neg (by simp [h])]
  · show (if Frac.ble maxWaitF st.elapsed then _ else _) = _
    rw [if_neg (by simp [h])]

/-- C4 (witness): the amended theorem applied at the initial poll state with
one status-error tick followed by a successful tick. -/
theorem c4_amended_witness :
    Frac.ble maxWaitF initPollSt.elapsed = false ∧
    (pollRun maxWaitF initPollSt [.statusErr 503 "unavailable", .body doneBody] =
      pollRun maxWaitF (advance initPollSt) [.body doneBody] ∧
    pollRun maxWaitF initPollSt [.transportErr "unavailable", .body doneBody] =
      .exc (.transport "unavailable")) :=
  ⟨rfl, c4_amended initPollSt [.body doneBody] 503 "unavailable" rfl⟩

/-- C5 (counterexample): a `done == true` body whose `generatedSamples`
list is empty makes the extraction raise `IndexError`, which is **not**
caught by the `except KeyError` clause: the poll run aborts with a bare
`IndexError`, not with an `APIError` carrying the response body. -/
theorem c5_counterexample :
    pollRun maxWaitF initPollSt [.body emptySamplesBody] = .exc .indexError ∧
    isApiError .indexError = false := ⟨rfl, rfl⟩

/-- C5 (amended): for every `done == true` poll body on which the URI
extraction fails, the poller never returns the body as a success — it
raises some exception; and when the extraction failure is a missing key
(`KeyError`), that exception is an `APIError` marking an extraction
failure with the full response body attached.  (Other malformed shapes —
an empty samples list or a wrongly-typed nesting — abort with the
underlying `IndexError`/`TypeError` unwrapped.) -/
theorem c5_amended (data : Json) (e : PyExc)
    (h1 : pyContains data "error" = .ok false)
    (h2 : ∃ d, dictGet data "done" (.bool false) = .ok d ∧ pyTruthy d = true)
    (h3 : extractVideoUri data = .error e) :
    (∃ e2, pollRun maxWaitF initPollSt [.body data] = .exc e2) ∧
    (∀ k, e = .keyError k →
      pollRun maxWaitF initPollSt [.body data] =
        .exc (.apiError ("Could not extract video URI: " ++ pyStr (.keyError k))
          (apiRespDetails data))) := by
  obtain ⟨d, hd, hdt⟩ := h2
  have hbody : handleBody data =
      match extractVideoUri data with
      | .ok uri => .ok (some uri)
      | .error (.keyError k) =>
        .error (.apiError ("Could not extract video URI: " ++ pyStr (.keyError k))
          (apiRespDetails data))
      | .error e => .error e := by
    unfold handleBody
    rw [h1, hd]
    simp only [hdt, if_true]
  have hrun : ∀ e2, handleBody data = .error e2 →
      pollRun maxWaitF initPollSt [.body data] = .exc e2 := by
    intro e2 h
    show (if Frac.ble maxWaitF initPollSt.elapsed then _ else _) = _
    rw [if_neg (by simp [maxWaitF, initPollSt, Frac.ble, Frac.ofInt])]
    simp only [h]
  constructor
  · cases e with
    | keyError k =>
      exact ⟨_, hrun _ (by rw [hbody, h3])⟩
    | transport m => exact ⟨_, hrun _ (by rw [hbody, h3])⟩
    | httpStatus c m => exact ⟨_, hrun _ (by rw [hbody, h3])⟩
    | indexError => exact ⟨_, hrun _ (by rw [hbody, h3])⟩
    | typeError m => exact ⟨_, hrun _ (by rw [hbody, h3])⟩
    | attributeError m => exact ⟨_, hrun _ (by rw [hbody, h3])⟩
    | valueError m => exact ⟨_, hrun _ (by rw [hbody, h3])⟩
    | apiError m d2 => exact ⟨_, hrun _ (by rw [hbody, h3])⟩
    | timeoutExc m d2 => exact ⟨_, hrun _ (by rw [hbody, h3])⟩
    | downloadError m d2 => exact ⟨_, hrun _ (by rw [hbody, h3])⟩
    | validationError m d2 => exact ⟨_, hrun _ (by rw [hbody, h3])⟩
  · intro k hk
    subst hk
    exact hrun _ (by rw [hbody, h3])

/-- C5 (witness): the amended theorem applied to the body
`{"done": true}` (missing `response` key): the run raises the `APIError`
extraction failure with the body attached. -/
theorem c5_amended_witness :
    pollRun maxWaitF initPollSt [.body (.obj [("done", .bool true)])] =
      .exc (.apiError ("Could not extract video URI: " ++ pyStr (.keyError "response"))
        (apiRespDetails (.obj [("done", .bool true)]))) :=
  (c5_amended (.obj [("done", .bool true)]) (.keyError "response") rfl
    ⟨.bool true, rfl, rfl⟩ rfl).2 "response" rfl

theorem downloadVideo_error_shape (uri : String) (fs0 : Option Nat)
    (b : DlBehavior) (e : PyExc) :
    (downloadVideo uri fs0 b).result = .error e → isDownloadError e = true := by
  cases b with
  | statusErr code => intro h; cases h; rfl
  | connectFail m => intro h; cases h; rfl
  | stream cs interrupt =>
    cases interrupt with
    | some m => intro h; cases h; rfl
    | none =>
      simp only [downloadVideo]
      split
      · intro h; cases h; rfl
      · intro h; cases h

/-- C8 (confirmed): the post-state of one `_download_video` attempt is
atomic with respect to the target path.  Starting from no file at the
target: a successful attempt leaves a file of exactly the downloaded size,
which is positive; every failing attempt leaves no file and raises a
`DownloadError`; a completed stream totalling zero bytes is one of those
failures (file deleted, `DownloadError` raised); and an interrupted stream
deletes the partially-written file regardless of what was at the target
before the call. -/
theorem c8_download_atomic (uri : String) (b : DlBehavior) :
    (∀ n, (downloadVideo uri none b).result = .ok n →
      (downloadVideo uri none b).fs = some n ∧ 0 < n) ∧
    (∀ e, (downloadVideo uri none b).result = .error e →
      (downloadVideo uri none b).fs = none ∧ isDownloadError e = true) ∧
    (∀ cs, b = .stream cs none → cs.foldl (· + ·) 0 = 0 →
      (∃ m d, (downloadVideo uri none b).result = .error (.downloadError m d)) ∧
      (downloadVideo uri none b).fs = none) ∧
    (∀ fs0 cs m, (downloadVideo uri fs0 (.stream cs (some m))).fs = none) := by
  refine ⟨?_, ?_, ?_, fun fs0 cs m => rfl⟩
  · intro n h
    cases b with
    | statusErr code => cases h
    | connectFail m => cases h
    | stream cs interrupt =>
      cases interrupt with
      | some m => cases h
      | none =>
        simp only [downloadVideo] at h ⊢
        split at h
        · cases h
        · cases h
          rename_i hsz
          exact ⟨by simp only [if_neg hsz], Nat.pos_of_ne_zero hsz⟩
  · intro e h
    refine ⟨?_, downloadVideo_error_shape uri none b e h⟩
    cases b with
    | statusErr code => rfl
    | connectFail m => rfl
    | stream cs interrupt =>
      cases interrupt with
      | some m => rfl
      | none =>
        simp only [downloadVideo] at h ⊢
        split at h
        · rename_i hsz
          simp only [if_pos hsz]
        · cases h
  · rintro cs rfl hsz
    simp only [downloadVideo] at *
    rw [if_pos hsz]
    exact ⟨⟨_, _, rfl⟩, rfl⟩

/-- C8 (witness): the theorem applied to a completed two-chunk stream of
zero total bytes: the attempt fails with a `DownloadError` and leaves no
file at the target. -/
theorem c8_download_atomic_witness :
    ((∃ m d, (downloadVideo "u" none (.stream [0, 0] none)).result =
        .error (.downloadError m d)) ∧
      (downloadVideo "u" none (.stream [0, 0] none)).fs = none) ∧
    (downloadVideo "u" none (.stream [4096, 4096] none)).result = .ok 8192 ∧
    (downloadVideo "u" none (.stream [4096, 4096] none)).fs = some 8192 :=
  ⟨(c8_download_atomic "u" (.stream [0, 0] none)).2.2.1 [0, 0] rfl rfl,
    rfl, rfl⟩

/-- C9 (code bug): the retry wrapper on `_download_video` never retries.
A transport-level failure during streaming is converted by the body's
generic `except Exception` clause into a `DownloadError`, which the
`tenacity` predicate (`retry_if_exception_type(httpx.HTTPError)`) does not
retry — so a download whose first attempt hits a connection reset makes
exactly one attempt and fails, even though a second attempt would have
succeeded.  More generally every call makes exactly one attempt, and an
HTTP error status on the initial response raises the status-annotated
`DownloadError` immediately (the only part of the claim the code satisfies). -/
theorem c9_download_never_retries :
    downloadVideoRetried "u" none
        [.stream [5] (some "connection reset"), .stream [5] none] =
      (⟨.error (.downloadError "Download failed: connection reset"
          [("video_uri", .str "u")]), none⟩, 1) ∧
    (∀ uri fs0 b rest, (downloadVideoRetried uri fs0 (b :: rest)).2 = 1) ∧
    (∀ uri fs0 code rest,
      (downloadVideoRetried uri fs0 (.statusErr code :: rest)).1.result =
        .error (.downloadError ("Download failed with status " ++ toString code)
          (mkDlErrDetails uri))) := by
  refine ⟨rfl, ?_, ?_⟩
  · intro uri fs0 b rest
    unfold downloadVideoRetried runRetry
    cases hres : (downloadVideo uri fs0 b).result with
    | ok n => simp [hres]
    | error e =>
      have := downloadVideo_error_shape uri fs0 b e hres
      have hnr : tenacityShouldRetry e = false := by
        cases e <;> first | rfl | simp [isDownloadError] at this
      simp [hres, hnr]
  · intro uri fs0 code rest
    unfold downloadVideoRetried runRetry
    simp [downloadVideo, tenacityShouldRetry]

/-! ## Supporting lemmas: every exception surfaced by a job step carries a
non-empty `str(e)`, and successful downloads have positive size. -/

theorem str_append_ne (a b : String) (ha : a ≠ "") : a ++ b ≠ "" := by
  intro h
  apply ha
  have h1 : (a ++ b).length = 0 := by rw [h]; rfl
  rw [String.length_append] at h1
  have h2 : a.length = 0 := by omega
  cases a with
  | mk data =>
    cases data with
    | nil => rfl
    | cons c cs =>
      have : (String.mk (c :: cs)).length = cs.length + 1 := by
        show (c :: cs).length = cs.length + 1
        simp
      omega

theorem vgStr_ne (m : String) (d : PyDict) (hm : m ≠ "") : vgStr m d ≠ "" := by
  unfold vgStr
  split
  · exact hm
  · exact str_append_ne _ _ (str_append_ne m _ hm)

theorem pyStr_keyError_ne (k : String) : pyStr (.keyError k) ≠ "" := by
  show "\"" ++ k ++ "\"" ≠ ""
  exact str_append_ne _ _ (str_append_ne "\"" k (by decide))

theorem pyIndexStr_error_msg (j : Json) (k : String) (e : PyExc)
    (h : pyIndexStr j k = .error e) : pyStr e ≠ "" := by
  cases j with
  | obj kvs =>
    simp only [pyIndexStr] at h
    split at h
    · cases h
    · cases h
      exact pyStr_keyError_ne k
  | str s => cases h; decide
  | arr xs => cases h; decide
  | null => cases h; decide
  | bool b => cases h; decide
  | num q => cases h; decide

theorem pyIndexNat_error_msg (j : Json) (i : Nat) (e : PyExc)
    (h : pyIndexNat j i = .error e) : pyStr e ≠ "" := by
  cases j with
  | arr xs =>
    simp only [pyIndexNat] at h
    split at h
    · cases h
    · cases h; decide
  | obj kvs => cases h; exact pyStr_keyError_ne _
  | str s =>
    simp only [pyIndexNat] at h
    split at h
    · cases h
    · cases h; decide
  | null => cases h; decide
  | bool b => cases h; decide
  | num q => cases h; decide

theorem pyContains_error_msg (j : Json) (n : String) (e : PyExc)
    (h : pyContains j n = .error e) : pyStr e ≠ "" := by
  cases j <;> cases h <;> decide

theorem dictGet_error_msg (j : Json) (k : String) (d : Json) (e : PyExc)
    (h : dictGet j k d = .error e) : pyStr e ≠ "" := by
  cases j <;> cases h <;> decide

theorem except_bind_error {α β : Type} (x : Except PyExc α)
    (f : α → Except PyExc β) (e : PyExc) (h : x >>= f = .error e) :
    x = .error e ∨ ∃ a, x = .ok a ∧ f a = .error e := by
  cases x with
  | error e' =>
    left
    have : e' = e := by
      simpa [Bind.bind, Except.bind] using h
    rw [this]
  | ok a =>
    right
    exact ⟨a, rfl, by simpa [Bind.bind, Except.bind] using h⟩

theorem extractVideoUri_error_msg (data : Json) (e : PyExc)
    (h : extractVideoUri data = .error e) : pyStr e ≠ "" := by
  unfold extractVideoUri at h
  rcases except_bind_error _ _ _ h with h | ⟨a1, _, h⟩
  · exact pyIndexStr_error_msg _ _ _ h
  rcases except_bind_error _ _ _ h with h | ⟨a2, _, h⟩
  · exact pyIndexStr_error_msg _ _ _ h
  rcases except_bind_error _ _ _ h with h | ⟨a3, _, h⟩
  · exact pyIndexStr_error_msg _ _ _ h
  rcases except_bind_error _ _ _ h with h | ⟨a4, _, h⟩
  · exact pyIndexNat_error_msg _ _ _ h
  rcases except_bind_error _ _ _ h with h | ⟨a5, _, h⟩
  · exact pyIndexStr_error_msg _ _ _ h
  · exact pyIndexStr_error_msg _ _ _ h

theorem handleBody_error_msg (data : Json) (e : PyExc)
    (h : handleBody data = .error e) : pyStr e ≠ "" := by
  unfold handleBody at h
  split at h
  · cases h
    exact pyContains_error_msg _ _ _ (by assumption)
  · split at h
    · cases h
      exact dictGet_error_msg _ _ _ _ (by assumption)
    · cases h
      exact vgStr_ne _ _ (by decide)
  · split at h
    · cases h
      exact dictGet_error_msg _ _ _ _ (by assumption)
    · split at h
      · split at h
        · cases h
        · cases h
          exact vgStr_ne _ _ (str_append_ne _ _ (by decide))
        · cases h
          exact extractVideoUri_error_msg _ _ (by assumption)
      · cases h

theorem pollRun_unfold (maxW : Frac) (st : PollSt) (ticks : List TickOutcome) :
    pollRun maxW st ticks =
      if Frac.ble maxW st.elapsed then
        .exc (.timeoutExc ("Operation timed out after " ++ fracStr maxW ++ " seconds")
          (timeoutDetails st.elapsed))
      else
        match ticks with
        | [] => .ranOut
        | .transportErr m :: _ => .exc (.transport m)
        | .statusErr _ _ :: rest => pollRun maxW (advance st) rest
        | .body data :: rest =>
          match handleBody data with
          | .error e => .exc e
          | .ok (some uri) => .success uri
          | .ok none => pollRun maxW (advance st) rest := by
  cases ticks with
  | nil => rfl
  | cons t rest => cases t <;> rfl

theorem pollRun_timeout (maxW : Frac) (st : PollSt) (ticks : List TickOutcome)
    (h : Frac.ble maxW st.elapsed = true) :
    pollRun maxW st ticks =
      .exc (.timeoutExc ("Operation timed out after " ++ fracStr maxW ++ " seconds")
        (timeoutDetails st.elapsed)) := by
  rw [pollRun_unfold, if_pos h]

theorem pollRun_nil (maxW : Frac) (st : PollSt)
    (h : Frac.ble maxW st.elapsed = false) : pollRun maxW st [] = .ranOut := by
  rw [pollRun_unfold, if_neg (by simp [h])]

theorem pollRun_transport (maxW : Frac) (st : PollSt) (m : String)
    (rest : List TickOutcome) (h : Frac.ble maxW st.elapsed = false) :
    pollRun maxW st (.transportErr m :: rest) = .exc (.transport m) := by
  rw [pollRun_unfold, if_neg (by simp [h])]

theorem pollRun_status (maxW : Frac) (st : PollSt) (code : Nat) (m : String)
    (rest : List TickOutcome) (h : Frac.ble maxW st.elapsed = false) :
    pollRun maxW st (.statusErr code m :: rest) =
      pollRun maxW (advance st) rest := by
  rw [pollRun_unfold, if_neg (by simp [h])]

theorem pollRun_body (maxW : Frac) (st : PollSt) (data : Json)
    (rest : List TickOutcome) (h : Frac.ble maxW st.elapsed = false) :
    pollRun maxW st (.body data :: rest) =
      (match handleBody data with
       | .error e => .exc e
       | .ok (some uri) => .success uri
       | .ok none => pollRun maxW (advance st) rest) := by
  rw [pollRun_unfold, if_neg (by simp [h])]

theorem pollRun_exc_msg :
    ∀ (ticks : List TickOutcome) (st : PollSt) (e : PyExc),
      ticks.all tickWf = true → pollRun maxWaitF st ticks = .exc e →
      pyStr e ≠ "" := by
  intro ticks
  induction ticks with
  | nil =>
    intro st e _ h
    cases hble : Frac.ble maxWaitF st.elapsed with
    | true =>
      rw [pollRun_timeout _ _ _ hble] at h
      cases h
      exact vgStr_ne _ _ (str_append_ne _ _ (str_append_ne _ _ (by decide)))
    | false =>
      rw [pollRun_nil _ _ hble] at h
      cases h
  | cons t rest ih =>
    intro st e hwf h
    simp only [List.all_cons, Bool.and_eq_true] at hwf
    cases hble : Frac.ble maxWaitF st.elapsed with
    | true =>
      rw [pollRun_timeout _ _ _ hble] at h
      cases h
      exact vgStr_ne _ _ (str_append_ne _ _ (str_append_ne _ _ (by decide)))
    | false =>
      cases t with
      | transportErr m =>
        rw [pollRun_transport _ _ _ _ hble] at h
        cases h
        have := hwf.1
        simp only [tickWf, Bool.not_eq_true', beq_eq_false_iff_ne, ne_eq] at this
        exact this
      | statusErr code m =>
        rw [pollRun_status _ _ _ _ _ hble] at h
        exact ih (advance st) e hwf.2 h
      | body data =>
        rw [pollRun_body _ _ _ _ hble] at h
        split at h
        · cases h
          exact handleBody_error_msg _ _ (by assumption)
        · cases h
        · exact ih (advance st) e hwf.2 h

theorem validateImage_error_msg (imagePath : Option String) (imageExists : Bool)
    (e : PyExc) (h : validateImage imagePath imageExists = .error e) :
    pyStr e ≠ "" := by
  unfold validateImage at h
  split at h
  · cases h
  · split at h
    · split at h
      · cases h
      · cases h; decide
    · cases h
      exact str_append_ne _ _ (by decide)

theorem validateRequest_error_msg (prompt : String)
    (outputPath imagePath : Option String) (imageExists : Bool) (e : PyExc)
    (h : validateRequest prompt outputPath imagePath imageExists = .error e) :
    pyStr e ≠ "" := by
  simp only [validateRequest] at h
  split at h
  · cases h; decide
  · split at h
    · cases h; decide
    · split at h
      · cases h; decide
      · split at h
        · split at h
          · cases hv : validateImage imagePath imageExists with
            | error e2 =>
              rw [hv] at h
              cases h
              exact validateImage_error_msg _ _ _ hv
            | ok v => rw [hv] at h; cases h
          · cases h; decide
        · cases hv : validateImage imagePath imageExists with
          | error e2 =>
            rw [hv] at h
            cases h
            exact validateImage_error_msg _ _ _ hv
          | ok v => rw [hv] at h; cases h

theorem uploadImage_error_msg (b : UploadBehavior) (e : PyExc)
    (h : uploadImage b = .error e) : pyStr e ≠ "" := by
  cases b with
  | raiseExc e0 =>
    cases h
    exact vgStr_ne _ _ (str_append_ne _ _ (by decide))
  | respUri u =>
    simp only [uploadImage] at h
    split at h <;> cases h
  | respNoUri => cases h

theorem initiate_generation_error_msg (prompt : String) (b : InitBehavior)
    (e : PyExc) (hb : ∀ m, b = .transportErr m → m ≠ "")
    (h : initiate_generation prompt b = .error e) : pyStr e ≠ "" := by
  simp only [initiate_generation] at h
  split at h
  · cases h
    exact vgStr_ne _ _ (by decide)
  · cases b with
    | transportErr m =>
      cases h
      exact hb m rfl
    | statusErr code excMsg errData =>
      cases h
      exact vgStr_ne _ _ (str_append_ne _ _ (by decide))
    | okBody body =>
      simp only at h
      split at h
      · cases h
        exact dictGet_error_msg _ _ _ _ (by assumption)
      · split at h
        · cases h
        · cases h
          exact vgStr_ne _ _ (by decide)

theorem downloadVideo_error_msg (uri : String) (fs0 : Option Nat)
    (b : DlBehavior) (e : PyExc)
    (h : (downloadVideo uri fs0 b).result = .error e) : pyStr e ≠ "" := by
  cases b with
  | statusErr code =>
    cases h
    exact vgStr_ne _ _ (str_append_ne _ _ (by decide))
  | connectFail m =>
    cases h
    exact vgStr_ne _ _ (str_append_ne _ _ (by decide))
  | stream cs interrupt =>
    cases interrupt with
    | some m =>
      cases h
      exact vgStr_ne _ _ (str_append_ne _ _ (by decide))
    | none =>
      simp only [downloadVideo] at h
      split at h
      · cases h
        exact vgStr_ne _ _ (str_append_ne _ _ (by decide))
      · cases h

theorem downloadVideo_ok_pos (uri : String) (fs0 : Option Nat) (b : DlBehavior)
    (n : Nat) (h : (downloadVideo uri fs0 b).result = .ok n) : 0 < n := by
  cases b with
  | statusErr code => cases h
  | connectFail m => cases h
  | stream cs interrupt =>
    cases interrupt with
    | some m => cases h
    | none =>
      simp only [downloadVideo] at h
      split at h
      · cases h
      · cases h
        rename_i hsz
        exact Nat.pos_of_ne_zero hsz

theorem runRetry_error_msg (uri : String) :
    ∀ (bs : List DlBehavior) (fs : Option Nat) (used : Nat) (e : PyExc),
      (runRetry MAX_RETRY_ATTEMPTS (downloadVideo uri) fs bs used).1.result =
        .error e → pyStr e ≠ "" := by
  intro bs
  induction bs with
  | nil =>
    intro fs used e h
    cases h
    decide
  | cons b rest ih =>
    intro fs used e h
    unfold runRetry at h
    split at h
    · rename_i a heq
      have h' : (downloadVideo uri fs b).result = .error e := h
      rw [heq] at h'
      cases h'
    · rename_i e0 hres
      split at h
      · exact ih _ _ _ h
      · have h' : (downloadVideo uri fs b).result = .error e := h
        rw [hres] at h'
        cases h'
        exact downloadVideo_error_msg uri fs b e hres

theorem runRetry_ok_pos (uri : String) :
    ∀ (bs : List DlBehavior) (fs : Option Nat) (used : Nat) (n : Nat),
      (runRetry MAX_RETRY_ATTEMPTS (downloadVideo uri) fs bs used).1.result =
        .ok n → 0 < n := by
  intro bs
  induction bs with
  | nil => intro fs used n h; cases h
  | cons b rest ih =>
    intro fs used n h
    unfold runRetry at h
    split at h
    · rename_i a heq
      have h' : (downloadVideo uri fs b).result = .ok n := h
      exact downloadVideo_ok_pos uri fs b n h'
    · rename_i e0 hres
      split at h
      · exact ih _ _ _ h
      · have h' : (downloadVideo uri fs b).result = .ok n := h
        rw [hres] at h'
        cases h'

theorem generateVideoBody_ok_shape (env : JobEnv) (prompt : String)
    (outputPath imagePath : Option String) (r : VideoResponse)
    (h : generateVideoBody env prompt outputPath imagePath = .ok r) :
    r.success = true ∧ r.video_path.isSome = true ∧
    (∃ n : Nat, 0 < n ∧ r.file_size_mb = some ((n : ℚ) / (1024 * 1024))) ∧
    r.error = none := by
  unfold generateVideoBody at h
  split at h
  · cases h
  · split at h
    · cases h
    · split at h
      · cases h
      · split at h
        · cases h
        · cases h
        · split at h
          · split at h
            · cases h
            · rename_i size hres
              cases h
              refine ⟨rfl, rfl, ⟨size, ?_, rfl⟩, rfl⟩
              exact runRetry_ok_pos _ _ _ _ _ hres
          · cases h

theorem generateVideoBody_error_msg (env : JobEnv) (prompt : String)
    (outputPath imagePath : Option String) (e : PyExc)
    (hwf : envWf env = true)
    (h : generateVideoBody env prompt outputPath imagePath = .error e) :
    pyStr e ≠ "" := by
  simp only [envWf, Bool.and_eq_true] at hwf
  obtain ⟨⟨hinit, hticks⟩, _hdls⟩ := hwf
  unfold generateVideoBody at h
  split at h
  · cases h
    exact validateRequest_error_msg _ _ _ _ _ (by assumption)
  · split at h
    · rename_i e0 hup
      cases h
      split at hup
      · exact uploadImage_error_msg _ _ hup
      · cases hup
    · split at h
      · cases h
        refine initiate_generation_error_msg _ _ _ ?_ (by assumption)
        intro m hm
        rw [hm] at hinit
        simpa using hinit
      · split at h
        · cases h
          decide
        · cases h
          exact pollRun_exc_msg env.ticks initPollSt _ hticks (by assumption)
        · split at h
          · split at h
            · cases h
              exact runRetry_error_msg _ _ _ _ _ (by assumption)
            · cases h
          · cases h
            decide

/-- C1 (confirmed): for every behaviour of the upload, submission, polling
and download steps (including any exception any of them raises), the
single-job orchestrator returns a `VideoResponse` — either the success
response built from the completed pipeline, or, when some step raised an
exception `e`, a failure response with `success = false`, `error = str(e)`,
and `error_details` equal to the exception's structured `details` payload
when it carries one (an empty dict otherwise).  The orchestrator itself
never propagates an exception: `generate_video_async` is total, and its
failure branch is exactly the `except Exception` conversion. -/
theorem c1_orchestrator_never_raises (env : JobEnv) (prompt : String)
    (outputPath imagePath : Option String)
    (_hpoll : pollCompletes env.ticks = true) :
    (generateVideoBody env prompt outputPath imagePath =
        .ok (generate_video_async env prompt outputPath imagePath) ∧
      (generate_video_async env prompt outputPath imagePath).success = true) ∨
    (∃ e, generateVideoBody env prompt outputPath imagePath = .error e ∧
      (generate_video_async env prompt outputPath imagePath).success = false ∧
      (generate_video_async env prompt outputPath imagePath).error =
        some (pyStr e) ∧
      (generate_video_async env prompt outputPath imagePath).error_details =
        some ((PyExc.detailsAttr e).getD [])) := by
  cases hb : generateVideoBody env prompt outputPath imagePath with
  | ok r =>
    left
    have hgva : generate_video_async env prompt outputPath imagePath = r := by
      unfold generate_video_async
      rw [hb]
    rw [hgva]
    exact ⟨rfl, (generateVideoBody_ok_shape env prompt outputPath imagePath r hb).1⟩
  | error e =>
    right
    have hgva : generate_video_async env prompt outputPath imagePath =
        { success := false, video_path := none, operation_name := none,
          video_uri := none, file_size_mb := none,
          generation_time := some env.elapsedTime,
          error := some (pyStr e),
          error_details := some ((PyExc.detailsAttr e).getD []) } := by
      unfold generate_video_async
      rw [hb]
    exact ⟨e, rfl, by rw [hgva], by rw [hgva], by rw [hgva]⟩

/-- C1 (witness): the theorem applied to an environment whose submission
step raises a transport error: the orchestrator still returns a
`VideoResponse` (the failure branch). -/
theorem c1_witness :
    pollCompletes jobEnvFail.ticks = true ∧
    ((generateVideoBody jobEnvFail "A cat" none none =
        .ok (generate_video_async jobEnvFail "A cat" none none) ∧
      (generate_video_async jobEnvFail "A cat" none none).success = true) ∨
    (∃ e, generateVideoBody jobEnvFail "A cat" none none = .error e ∧
      (generate_video_async jobEnvFail "A cat" none none).success = false ∧
      (generate_video_async jobEnvFail "A cat" none none).error =
        some (pyStr e) ∧
      (generate_video_async jobEnvFail "A cat" none none).error_details =
        some ((PyExc.detailsAttr e).getD []))) :=
  ⟨rfl, c1_orchestrator_never_raises jobEnvFail "A cat" none none rfl⟩

/-- C2 (confirmed): for every `VideoResponse` produced by
`generate_video_async` (under a well-formed environment: foreign transport
errors carry non-empty messages, the poll observation suffices, the retry
loop makes at least one attempt): `success = true` implies `video_path` is
set and the recorded file size is positive (a zero-byte download was
rejected before the success outcome could be built), and `success = false`
implies `video_path` is unset and `error` is a non-empty message. -/
theorem c2_response_invariant (env : JobEnv) (prompt : String)
    (outputPath imagePath : Option String)
    (_hpoll : pollCompletes env.ticks = true)
    (hwf : envWf env = true) :
    ((generate_video_async env prompt outputPath imagePath).success = true →
      (generate_video_async env prompt outputPath imagePath).video_path.isSome
        = true ∧
      ∃ q, (generate_video_async env prompt outputPath imagePath).file_size_mb
        = some q ∧ 0 < q) ∧
    ((generate_video_async env prompt outputPath imagePath).success = false →
      (generate_video_async env prompt outputPath imagePath).video_path
        = none ∧
      ∃ m, (generate_video_async env prompt outputPath imagePath).error
        = some m ∧ m ≠ "") := by
  cases hb : generateVideoBody env prompt outputPath imagePath with
  | ok r =>
    have hgva : generate_video_async env prompt outputPath imagePath = r := by
      unfold generate_video_async
      rw [hb]
    obtain ⟨hs, hvp, ⟨n, hn, hfs⟩, _⟩ :=
      generateVideoBody_ok_shape env prompt outputPath imagePath r hb
    constructor
    · intro _
      rw [hgva]
      refine ⟨hvp, (n : ℚ) / (1024 * 1024), hfs, ?_⟩
      apply div_pos
      · exact_mod_cast hn
      · norm_num
    · intro hfalse
      rw [hgva, hs] at hfalse
      cases hfalse
  | error e =>
    have hgva : generate_video_async env prompt outputPath imagePath =
        { success := false, video_path := none, operation_name := none,
          video_uri := none, file_size_mb := none,
          generation_time := some env.elapsedTime,
          error := some (pyStr e),
          error_details := some ((PyExc.detailsAttr e).getD []) } := by
      unfold generate_video_async
      rw [hb]
    constructor
    · intro htrue
      rw [hgva] at htrue
      cases htrue
    · intro _
      rw [hgva]
      exact ⟨rfl, pyStr e, rfl,
        generateVideoBody_error_msg env prompt outputPath imagePath e hwf hb⟩

/-- C2 (witness): the theorem applied to the all-steps-succeed environment
(and, to exercise the failure branch too, the well-formedness facts are
checked for the transport-failure environment). -/
theorem c2_witness :
    pollCompletes jobEnvOk.ticks = true ∧ envWf jobEnvOk = true ∧
    (((generate_video_async jobEnvOk "A cat" none none).success = true →
      (generate_video_async jobEnvOk "A cat" none none).video_path.isSome
        = true ∧
      ∃ q, (generate_video_async jobEnvOk "A cat" none none).file_size_mb
        = some q ∧ 0 < q) ∧
    ((generate_video_async jobEnvOk "A cat" none none).success = false →
      (generate_video_async jobEnvOk "A cat" none none).video_path = none ∧
      ∃ m, (generate_video_async jobEnvOk "A cat" none none).error
        = some m ∧ m ≠ "")) :=
  ⟨rfl, rfl, c2_response_invariant jobEnvOk "A cat" none none rfl rfl⟩

theorem lookup_map_self (f : Nat → VideoResponse) :
    ∀ (order : List Nat) (i : Nat), i ∈ order →
      (order.map (fun j => (j, f j))).lookup i = some (f i) := by
  intro order
  induction order with
  | nil => intro i h; cases h
  | cons j rest ih =>
    intro i h
    simp only [List.map_cons, List.lookup]
    by_cases hij : j = i
    · subst hij
      simp
    · have hbeq : (i == j) = false := by
        rw [beq_eq_false_iff_ne]
        exact fun hh => hij hh.symm
      rw [hbeq]
      apply ih
      cases h with
      | head => exact absurd rfl hij
      | tail _ h2 => exact h2

/-- C3 (confirmed): for every batch run, `successful + failed == total ==
len(results) == len(prompts)`, and the result at index `i` is exactly the
outcome of the job for `prompts[i]`, for **every** completion order that
schedules each job (so the correspondence is independent of the order in
which concurrent jobs complete, and no job's failure prevents any other
job's outcome from being delivered — there is no fail-fast path). -/
theorem c3_batch_invariant (env : BatchEnv) (prompts : List String)
    (order : List Nat) (horder : ∀ i, i < prompts.length → i ∈ order) :
    (generate_batch env prompts order).successful +
      (generate_batch env prompts order).failed =
      (generate_batch env prompts order).total ∧
    (generate_batch env prompts order).total =
      (generate_batch env prompts order).results.length ∧
    (generate_batch env prompts order).results.length = prompts.length ∧
    (∀ i, i < prompts.length →
      (generate_batch env prompts order).results.getD i defaultResponse =
        batchJob env prompts i) := by
  have hlen : (gatherByIndex (batchJob env prompts) prompts.length order).length =
      prompts.length := by
    simp [gatherByIndex]
  refine ⟨?_, ?_, ?_, ?_⟩
  · simp only [generate_batch, aggregate]
    have hle : (gatherByIndex (batchJob env prompts) prompts.length
        order).countP (fun r => is_success r) ≤
        (gatherByIndex (batchJob env prompts) prompts.length order).length :=
      List.countP_le_length _
    omega
  · simp [generate_batch, aggregate, hlen]
  · simpa [generate_batch, aggregate] using hlen
  · intro i hi
    simp only [generate_batch, aggregate, gatherByIndex]
    rw [List.getD_eq_getElem?_getD, List.getElem?_map,
      List.getElem?_range hi]
    simp only [Option.map_some', Option.getD_some]
    rw [lookup_map_self (batchJob env prompts) order i (horder i hi)]
    rfl

/-- C3 (witness): a two-prompt batch whose jobs complete out of order
(`order = [1, 0]`): counts add up and `results[i]` is the job outcome for
`prompts[i]`. -/
theorem c3_batch_invariant_witness :
    (∀ i, i < (["A cat", "Ocean waves"] : List String).length →
      i ∈ ([1, 0] : List Nat)) ∧
    ((generate_batch batchEnvOk ["A cat", "Ocean waves"] [1, 0]).successful +
      (generate_batch batchEnvOk ["A cat", "Ocean waves"] [1, 0]).failed =
      (generate_batch batchEnvOk ["A cat", "Ocean waves"] [1, 0]).total ∧
    (generate_batch batchEnvOk ["A cat", "Ocean waves"] [1, 0]).total =
      (generate_batch batchEnvOk ["A cat", "Ocean waves"] [1, 0]).results.length ∧
    (generate_batch batchEnvOk ["A cat", "Ocean waves"] [1, 0]).results.length =
      (["A cat", "Ocean waves"] : List String).length ∧
    (∀ i, i < (["A cat", "Ocean waves"] : List String).length →
      (generate_batch batchEnvOk ["A cat", "Ocean waves"] [1, 0]).results.getD
          i defaultResponse =
        batchJob batchEnvOk ["A cat", "Ocean waves"] i)) :=
  ⟨by decide, c3_batch_invariant batchEnvOk ["A cat", "Ocean waves"] [1, 0]
    (by decide)⟩

/-- C10 (confirmed): a `VideoResponse` counts as successful exactly when
`success == true` **and** `video_path` is set; a response with
`success == true` but no `video_path` is classified as a failure; the
batch aggregation's `successful`/`failed` counts equal the lengths of
`get_successful_videos`/`get_failed_videos`; and every result falls into
exactly one of the two classes. -/
theorem c10_is_success_classification (prompts : List String)
    (results : List VideoResponse) (tt : ℚ) :
    (∀ r : VideoResponse, is_success r = true ↔
      (r.success = true ∧ r.video_path ≠ none)) ∧
    is_success respTrueNoPath = false ∧
    (aggregate prompts results tt).successful =
      (get_successful_videos (aggregate prompts results tt)).length ∧
    (aggregate prompts results tt).failed =
      (get_failed_videos (aggregate prompts results tt)).length ∧
    (get_successful_videos (aggregate prompts results tt)).length +
      (get_failed_videos (aggregate prompts results tt)).length =
      results.length ∧
    (∀ r, r ∈ results →
      ((r ∈ get_successful_videos (aggregate prompts results tt) ↔
        is_success r = true) ∧
       (r ∈ get_failed_videos (aggregate prompts results tt) ↔
        is_success r = false))) := by
  have hsplit : results.length =
      (results.filter (fun r => is_success r)).length +
      (results.filter (fun r => !is_success r)).length :=
    List.length_eq_length_filter_add _
  refine ⟨?_, rfl, ?_, ?_, ?_, ?_⟩
  · intro r
    simp [is_success, Bool.and_eq_true, Option.isSome_iff_ne_none]
  · simp [aggregate, get_successful_videos, List.countP_eq_length_filter]
  · simp only [aggregate, get_failed_videos]
    rw [List.countP_eq_length_filter]
    omega
  · simp only [aggregate, get_successful_videos, get_failed_videos]
    omega
  · intro r hr
    constructor
    · simp [aggregate, get_successful_videos, List.mem_filter, hr]
    · simp [aggregate, get_failed_videos, List.mem_filter, hr]

/-- C10 (witness): in a batch containing a response with `success == true`
but no `video_path` and a genuinely successful response, the former is
classified as failed everywhere. -/
theorem c10_witness :
    is_success respTrueNoPath = false ∧
    (respTrueNoPath ∈
      get_failed_videos (aggregate ["p"]
        [respTrueNoPath,
         respTrueWithPath] 1) ↔
      is_success respTrueNoPath = false) ∧
    (aggregate ["p"]
      [respTrueNoPath,
       respTrueWithPath] 1).successful = 1 :=
  ⟨rfl,
    ((c10_is_success_classification ["p"] _ 1).2.2.2.2.2 _
      (by simp)).2,
    rfl⟩
